import Mathlib

/-!
Shallow embedding of the command-dispatch and debug-console layer of the
Antigravity-Manager front end.

* `src/utils/request.ts` — command registry (`COMMAND_MAPPING`), the
  `request` dispatcher with its native (Tauri `invoke`) and remote (HTTP
  `fetch`) paths, path-placeholder substitution, query-string building,
  response normalization and the debounced 401 notification.
* the debug-console zustand store — bounded log buffer (`addLog`,
  capacity 5000), snapshot loading (`loadLogs`), `clearLogs`,
  `enable`/`disable`, `startListening`/`stopListening`, `checkEnabled`.

JavaScript values that can appear in an argument mapping are modelled by
`JSValue`; argument objects are ordered association lists (JS object key
insertion order).  External capabilities (the Tauri invoke interface, the
network, `JSON.parse`) are parameters of the corresponding functions.
-/

namespace AGM

/-- A JavaScript value as it can appear in a command argument mapping. -/
inductive JSValue where
  | str (s : String)
  | num (n : Int)
  | bool (b : Bool)
  | null
  | undef
deriving DecidableEq, Repr

/-- JS `String(v)` coercion as applied by the dispatcher. -/
def jsString : JSValue → String
  | .str s => s
  | .num n => toString n
  | .bool b => if b then "true" else "false"
  | .null => "null"
  | .undef => "undefined"

/-- An argument object: ordered key/value pairs (JS insertion order). -/
def ArgObj := List (String × JSValue)

/-- Hex digit characters used by percent-encoding (uppercase, as produced
by `encodeURIComponent` and `URLSearchParams`). -/
def hexDigit (n : Nat) : Char :=
  "0123456789ABCDEF".data.getD n '0'

/-- Percent-encode one byte: `%XY`. -/
def percentByte (b : Nat) : List Char :=
  ['%', hexDigit (b / 16), hexDigit (b % 16)]

/-- UTF-8 bytes of a character (standard encoding). -/
def utf8Bytes (c : Char) : List Nat :=
  let n := c.toNat
  if n < 0x80 then [n]
  else if n < 0x800 then
    [0xC0 + n / 64, 0x80 + n % 64]
  else if n < 0x10000 then
    [0xE0 + n / 4096, 0x80 + (n / 64) % 64, 0x80 + n % 64]
  else
    [0xF0 + n / 262144, 0x80 + (n / 4096) % 64, 0x80 + (n / 64) % 64, 0x80 + n % 64]

/-- Characters `encodeURIComponent` leaves unescaped:
`A–Z a–z 0–9 - _ . ! ~ * ' ( )`. -/
def uriUnreserved (c : Char) : Bool :=
  ('A' ≤ c && c ≤ 'Z') || ('a' ≤ c && c ≤ 'z') || ('0' ≤ c && c ≤ '9') ||
  c = '-' || c = '_' || c = '.' || c = '!' || c = '~' || c = '*' ||
  c = '\'' || c = '(' || c = ')'

/-- `encodeURIComponent` on one character. -/
def encodeURIChar (c : Char) : List Char :=
  if uriUnreserved c then [c] else (utf8Bytes c).flatMap percentByte

/-- JS `encodeURIComponent`. -/
def encodeURIComponent (s : String) : String :=
  String.mk (s.data.flatMap encodeURIChar)

/-- Characters the `application/x-www-form-urlencoded` serializer
(`URLSearchParams.toString`) leaves unescaped: alphanumerics and
`* - . _`. -/
def formUnreserved (c : Char) : Bool :=
  ('A' ≤ c && c ≤ 'Z') || ('a' ≤ c && c ≤ 'z') || ('0' ≤ c && c ≤ '9') ||
  c = '*' || c = '-' || c = '.' || c = '_'

/-- `URLSearchParams` serialization of one character: space becomes `+`,
unreserved characters pass through, everything else is percent-encoded
byte-wise. -/
def formEncodeChar (c : Char) : List Char :=
  if c = ' ' then ['+']
  else if formUnreserved c then [c]
  else (utf8Bytes c).flatMap percentByte

/-- `URLSearchParams` serialization of a string. -/
def formEncode (s : String) : String :=
  String.mk (s.data.flatMap formEncodeChar)

/-- JS `String.prototype.replace` with a string pattern: replace the
first occurrence of `pat` (if any) by `repl`. -/
def listReplaceFirst (s pat repl : List Char) : List Char :=
  match s with
  | [] => []
  | c :: rest =>
    if pat.isPrefixOf (c :: rest) then repl ++ (c :: rest).drop pat.length
    else c :: listReplaceFirst rest pat repl

/-- JS `String.prototype.includes` with a string pattern. -/
def listHasSubstr (s pat : List Char) : Bool :=
  match s with
  | [] => decide (pat = [])
  | _ :: rest => pat.isPrefixOf s || listHasSubstr rest pat

def replaceFirstStr (s pat repl : String) : String :=
  String.mk (listReplaceFirst s.data pat.data repl.data)

def hasSubstr (s pat : String) : Bool :=
  listHasSubstr s.data pat.data

/-- HTTP verbs used by the command registry. -/
inductive Method where
  | GET | POST | DELETE
deriving DecidableEq, Repr

/-- One registry entry: URL template and verb. -/
structure CmdMapping where
  url : String
  method : Method
deriving DecidableEq, Repr

end AGM

namespace AGM

/-- The command registry of `request.ts`: command name to HTTP descriptor
(ordered as in the source object literal). -/
def COMMAND_MAPPING : List (String × CmdMapping) := [
  ("list_accounts", (⟨"/api/accounts", .GET⟩ : CmdMapping)),
  ("get_current_account", (⟨"/api/accounts/current", .GET⟩ : CmdMapping)),
  ("switch_account", (⟨"/api/accounts/switch", .POST⟩ : CmdMapping)),
  ("add_account", (⟨"/api/accounts", .POST⟩ : CmdMapping)),
  ("delete_account", (⟨"/api/accounts/:accountId", .DELETE⟩ : CmdMapping)),
  ("delete_accounts", (⟨"/api/accounts/bulk-delete", .POST⟩ : CmdMapping)),
  ("fetch_account_quota", (⟨"/api/accounts/:accountId/quota", .GET⟩ : CmdMapping)),
  ("refresh_account_quota", (⟨"/api/accounts/:accountId/quota", .GET⟩ : CmdMapping)),
  ("refresh_all_quotas", (⟨"/api/accounts/refresh", .POST⟩ : CmdMapping)),
  ("reorder_accounts", (⟨"/api/accounts/reorder", .POST⟩ : CmdMapping)),
  ("toggle_proxy_status", (⟨"/api/accounts/:accountId/toggle-proxy", .POST⟩ : CmdMapping)),
  ("warm_up_accounts", (⟨"/api/accounts/warmup", .POST⟩ : CmdMapping)),
  ("warm_up_all_accounts", (⟨"/api/accounts/warmup", .POST⟩ : CmdMapping)),
  ("warm_up_account", (⟨"/api/accounts/:accountId/warmup", .POST⟩ : CmdMapping)),
  ("export_accounts", (⟨"/api/accounts/export", .POST⟩ : CmdMapping)),
  ("bind_device_profile", (⟨"/api/accounts/:accountId/bind-device", .POST⟩ : CmdMapping)),
  ("get_device_profiles", (⟨"/api/accounts/:accountId/device-profiles", .GET⟩ : CmdMapping)),
  ("list_device_versions", (⟨"/api/accounts/:accountId/device-versions", .GET⟩ : CmdMapping)),
  ("preview_generate_profile", (⟨"/api/accounts/device-preview", .POST⟩ : CmdMapping)),
  ("bind_device_profile_with_profile", (⟨"/api/accounts/:accountId/bind-device-profile", .POST⟩ : CmdMapping)),
  ("restore_original_device", (⟨"/api/accounts/restore-original", .POST⟩ : CmdMapping)),
  ("restore_device_version", (⟨"/api/accounts/:accountId/device-versions/:versionId/restore", .POST⟩ : CmdMapping)),
  ("delete_device_version", (⟨"/api/accounts/:accountId/device-versions/:versionId", .DELETE⟩ : CmdMapping)),
  ("open_device_folder", (⟨"/api/system/open-folder", .POST⟩ : CmdMapping)),
  ("get_proxy_status", (⟨"/api/proxy/status", .GET⟩ : CmdMapping)),
  ("start_proxy_service", (⟨"/api/proxy/start", .POST⟩ : CmdMapping)),
  ("stop_proxy_service", (⟨"/api/proxy/stop", .POST⟩ : CmdMapping)),
  ("update_model_mapping", (⟨"/api/proxy/mapping", .POST⟩ : CmdMapping)),
  ("generate_api_key", (⟨"/api/proxy/api-key/generate", .POST⟩ : CmdMapping)),
  ("clear_proxy_session_bindings", (⟨"/api/proxy/session-bindings/clear", .POST⟩ : CmdMapping)),
  ("clear_proxy_rate_limit", (⟨"/api/proxy/rate-limits/:accountId", .DELETE⟩ : CmdMapping)),
  ("clear_all_proxy_rate_limits", (⟨"/api/proxy/rate-limits", .DELETE⟩ : CmdMapping)),
  ("check_proxy_health", (⟨"/api/proxy/health-check/trigger", .POST⟩ : CmdMapping)),
  ("get_preferred_account", (⟨"/api/proxy/preferred-account", .GET⟩ : CmdMapping)),
  ("set_preferred_account", (⟨"/api/proxy/preferred-account", .POST⟩ : CmdMapping)),
  ("fetch_zai_models", (⟨"/api/zai/models/fetch", .POST⟩ : CmdMapping)),
  ("load_config", (⟨"/api/config", .GET⟩ : CmdMapping)),
  ("save_config", (⟨"/api/config", .POST⟩ : CmdMapping)),
  ("get_proxy_stats", (⟨"/api/proxy/stats", .GET⟩ : CmdMapping)),
  ("set_proxy_monitor_enabled", (⟨"/api/proxy/monitor/toggle", .POST⟩ : CmdMapping)),
  ("get_proxy_logs_filtered", (⟨"/api/logs", .GET⟩ : CmdMapping)),
  ("get_proxy_logs_count_filtered", (⟨"/api/logs/count", .GET⟩ : CmdMapping)),
  ("clear_proxy_logs", (⟨"/api/logs/clear", .POST⟩ : CmdMapping)),
  ("get_proxy_log_detail", (⟨"/api/logs/:logId", .GET⟩ : CmdMapping)),
  ("enable_debug_console", (⟨"/api/proxy/debug/enable", .POST⟩ : CmdMapping)),
  ("disable_debug_console", (⟨"/api/proxy/debug/disable", .POST⟩ : CmdMapping)),
  ("is_debug_console_enabled", (⟨"/api/proxy/debug/enabled", .GET⟩ : CmdMapping)),
  ("get_debug_console_logs", (⟨"/api/proxy/debug/logs", .GET⟩ : CmdMapping)),
  ("clear_debug_console_logs", (⟨"/api/proxy/debug/logs/clear", .POST⟩ : CmdMapping)),
  ("get_cli_sync_status", (⟨"/api/proxy/cli/status", .POST⟩ : CmdMapping)),
  ("execute_cli_sync", (⟨"/api/proxy/cli/sync", .POST⟩ : CmdMapping)),
  ("execute_cli_restore", (⟨"/api/proxy/cli/restore", .POST⟩ : CmdMapping)),
  ("get_cli_config_content", (⟨"/api/proxy/cli/config", .POST⟩ : CmdMapping)),
  ("get_token_stats_hourly", (⟨"/api/stats/token/hourly", .GET⟩ : CmdMapping)),
  ("get_token_stats_daily", (⟨"/api/stats/token/daily", .GET⟩ : CmdMapping)),
  ("get_token_stats_weekly", (⟨"/api/stats/token/weekly", .GET⟩ : CmdMapping)),
  ("get_token_stats_by_account", (⟨"/api/stats/token/by-account", .GET⟩ : CmdMapping)),
  ("get_token_stats_summary", (⟨"/api/stats/token/summary", .GET⟩ : CmdMapping)),
  ("get_token_stats_by_model", (⟨"/api/stats/token/by-model", .GET⟩ : CmdMapping)),
  ("get_token_stats_model_trend_hourly", (⟨"/api/stats/token/model-trend/hourly", .GET⟩ : CmdMapping)),
  ("get_token_stats_model_trend_daily", (⟨"/api/stats/token/model-trend/daily", .GET⟩ : CmdMapping)),
  ("get_token_stats_account_trend_hourly", (⟨"/api/stats/token/account-trend/hourly", .GET⟩ : CmdMapping)),
  ("get_token_stats_account_trend_daily", (⟨"/api/stats/token/account-trend/daily", .GET⟩ : CmdMapping)),
  ("get_data_dir_path", (⟨"/api/system/data-dir", .GET⟩ : CmdMapping)),
  ("save_text_file", (⟨"/api/system/save-file", .POST⟩ : CmdMapping)),
  ("get_update_settings", (⟨"/api/system/updates/settings", .GET⟩ : CmdMapping)),
  ("save_update_settings", (⟨"/api/system/updates/save", .POST⟩ : CmdMapping)),
  ("is_auto_launch_enabled", (⟨"/api/system/autostart/status", .GET⟩ : CmdMapping)),
  ("toggle_auto_launch", (⟨"/api/system/autostart/toggle", .POST⟩ : CmdMapping)),
  ("get_http_api_settings", (⟨"/api/system/http-api/settings", .GET⟩ : CmdMapping)),
  ("save_http_api_settings", (⟨"/api/system/http-api/settings", .POST⟩ : CmdMapping)),
  ("cloudflared_install", (⟨"/api/proxy/cloudflared/install", .POST⟩ : CmdMapping)),
  ("cloudflared_start", (⟨"/api/proxy/cloudflared/start", .POST⟩ : CmdMapping)),
  ("cloudflared_stop", (⟨"/api/proxy/cloudflared/stop", .POST⟩ : CmdMapping)),
  ("cloudflared_get_status", (⟨"/api/proxy/cloudflared/status", .GET⟩ : CmdMapping)),
  ("should_check_updates", (⟨"/api/system/updates/check-status", .GET⟩ : CmdMapping)),
  ("check_for_updates", (⟨"/api/system/updates/check", .POST⟩ : CmdMapping)),
  ("update_last_check_time", (⟨"/api/system/updates/touch", .POST⟩ : CmdMapping)),
  ("prepare_oauth_url", (⟨"/api/auth/url", .GET⟩ : CmdMapping)),
  ("start_oauth_login", (⟨"/api/accounts/oauth/start", .POST⟩ : CmdMapping)),
  ("complete_oauth_login", (⟨"/api/accounts/oauth/complete", .POST⟩ : CmdMapping)),
  ("cancel_oauth_login", (⟨"/api/accounts/oauth/cancel", .POST⟩ : CmdMapping)),
  ("submit_oauth_code", (⟨"/api/accounts/oauth/submit-code", .POST⟩ : CmdMapping)),
  ("import_v1_accounts", (⟨"/api/accounts/import/v1", .POST⟩ : CmdMapping)),
  ("import_from_db", (⟨"/api/accounts/import/db", .POST⟩ : CmdMapping)),
  ("import_custom_db", (⟨"/api/accounts/import/db-custom", .POST⟩ : CmdMapping)),
  ("sync_account_from_db", (⟨"/api/accounts/sync/db", .POST⟩ : CmdMapping)),
  ("open_data_folder", (⟨"/api/system/open-folder", .POST⟩ : CmdMapping)),
  ("get_ip_access_logs", (⟨"/api/security/logs", .GET⟩ : CmdMapping)),
  ("clear_ip_access_logs", (⟨"/api/security/logs/clear", .POST⟩ : CmdMapping)),
  ("get_ip_stats", (⟨"/api/security/stats", .GET⟩ : CmdMapping)),
  ("get_ip_token_stats", (⟨"/api/security/token-stats", .GET⟩ : CmdMapping)),
  ("get_ip_blacklist", (⟨"/api/security/blacklist", .GET⟩ : CmdMapping)),
  ("add_ip_to_blacklist", (⟨"/api/security/blacklist", .POST⟩ : CmdMapping)),
  ("remove_ip_from_blacklist", (⟨"/api/security/blacklist", .DELETE⟩ : CmdMapping)),
  ("clear_ip_blacklist", (⟨"/api/security/blacklist/clear", .POST⟩ : CmdMapping)),
  ("check_ip_in_blacklist", (⟨"/api/security/blacklist/check", .GET⟩ : CmdMapping)),
  ("get_ip_whitelist", (⟨"/api/security/whitelist", .GET⟩ : CmdMapping)),
  ("add_ip_to_whitelist", (⟨"/api/security/whitelist", .POST⟩ : CmdMapping)),
  ("remove_ip_from_whitelist", (⟨"/api/security/whitelist", .DELETE⟩ : CmdMapping)),
  ("clear_ip_whitelist", (⟨"/api/security/whitelist/clear", .POST⟩ : CmdMapping)),
  ("check_ip_in_whitelist", (⟨"/api/security/whitelist/check", .GET⟩ : CmdMapping)),
  ("get_security_config", (⟨"/api/security/config", .GET⟩ : CmdMapping)),
  ("update_security_config", (⟨"/api/security/config", .POST⟩ : CmdMapping))
]

/-- Registry lookup (`COMMAND_MAPPING[cmd]`): first matching key. -/
def lookupCmd (cmd : String) : Option CmdMapping :=
  (COMMAND_MAPPING.find? (fun p => p.1 = cmd)).map (·.2)

/-- The generic path-parameter pass of `request`: for each key of `args`
in order, if `:key` occurs in the current URL, replace its first
occurrence by `encodeURIComponent(String(args[key]))`. -/
def substPath (url : String) (args : List (String × JSValue)) : String :=
  args.foldl
    (fun u kv =>
      let placeholder := ":" ++ kv.1
      if hasSubstr u placeholder then
        replaceFirstStr u placeholder (encodeURIComponent (jsString kv.2))
      else u)
    url

/-- The `URLSearchParams` accumulation loop of `request`: append
`(key, String(value))` for every entry whose value is neither
`undefined` nor `null`. -/
def collectParams (args : List (String × JSValue)) : List (String × String) :=
  args.foldl
    (fun ps kv =>
      if kv.2 ≠ JSValue.undef ∧ kv.2 ≠ JSValue.null then ps ++ [(kv.1, jsString kv.2)]
      else ps)
    []

/-- `URLSearchParams.toString`: `k=v` pairs, form-encoded, joined by `&`. -/
def serializeParams (ps : List (String × String)) : String :=
  String.intercalate "&" (ps.map fun p => formEncode p.1 ++ "=" ++ formEncode p.2)

/-- An outgoing HTTP request as assembled by the remote path (the
structured body is kept as the argument mapping; it is serialized at the
transport boundary). -/
structure HttpRequest where
  method : Method
  url : String
  body : Option (List (String × JSValue))
deriving DecidableEq, Repr

/-- The remote-path request assembly of `request` (lines 153–194):
registry lookup, path-placeholder substitution, then either a query
string (GET/DELETE) or a structured body (POST).  `none` models the
`UnmappedCommand` throw. -/
def buildRemoteRequest (cmd : String) (args : Option (List (String × JSValue))) :
    Option HttpRequest :=
  match lookupCmd cmd with
  | none => none
  | some m =>
    let url := match args with
      | some a => substPath m.url a
      | none => m.url
    match m.method, args with
    | .GET, some a | .DELETE, some a =>
      let qs := serializeParams (collectParams a)
      some { method := m.method,
             url := if qs ≠ "" then url ++ "?" ++ qs else url,
             body := none }
    | .POST, some a => some { method := m.method, url := url, body := some a }
    | _, none => some { method := m.method, url := url, body := none }

/-- Scanner for `:key` placeholder names: `inKey` says whether a
placeholder is being read, `acc` holds its characters so far in reverse
(a placeholder runs from `:` to the next `/`). -/
def scanPlaceholders (inKey : Bool) (acc : List Char) : List Char → List String
  | [] => if inKey then [String.mk acc.reverse] else []
  | c :: rest =>
    if inKey then
      if c = '/' then String.mk acc.reverse :: scanPlaceholders false [] rest
      else scanPlaceholders true (c :: acc) rest
    else
      if c = ':' then scanPlaceholders true [] rest
      else scanPlaceholders false [] rest

/-- The `:key` placeholder names of a URL template, in order of
occurrence. -/
def placeholderKeys (url : String) : List String :=
  scanPlaceholders false [] url.data

/-- Arguments that bind every placeholder of a template to the string
"42" (the spec scenario value). -/
def canonicalArgs (url : String) : List (String × JSValue) :=
  (placeholderKeys url).map (fun k => (k, JSValue.str "42"))

end AGM

namespace AGM

/-- A parsed JSON value (result of `JSON.parse` / `response.json()`). -/
inductive Json where
  | null
  | bool (b : Bool)
  | num (n : Int)
  | str (s : String)
  | arr (xs : List Json)
  | obj (fields : List (String × Json))

/-- JS truthiness of a JSON value (`errorData.error || ...`). -/
def truthy : Json → Bool
  | .null => false
  | .bool b => b
  | .num n => n ≠ 0
  | .str s => s ≠ ""
  | .arr _ => true
  | .obj _ => true

/-- Property access `j.k` on a parsed value: `none` models `undefined`. -/
def lookupField (j : Json) (k : String) : Option Json :=
  match j with
  | .obj fields => (fields.find? (fun p => p.1 = k)).map (·.2)
  | _ => none

/-- A settled HTTP response: status code and body text. -/
structure FetchResponse where
  status : Nat
  body : String

/-- The value a successful dispatch hands back to the caller. -/
inductive RespValue where
  | null
  | json (j : Json)
  | text (s : String)

/-- The failures `request` can throw, classified per the error taxonomy:
`transport` is a native-call failure (`TransportError`), `unmapped` a
registry miss (`UnmappedCommand`), `http` a non-2xx remote response
(`HTTPError`). -/
inductive RequestError where
  | transport (e : Json)
  | unmapped (cmd : String)
  | http (e : Json)

/-- The thrown value of the non-ok branch:
`errorData.error || "HTTP Error {status}"` where `errorData` is the
parsed body, or `{}` if the body fails to parse. -/
def extractError (parse : String → Option Json) (r : FetchResponse) : Json :=
  let errorData := (parse r.body).getD (.obj [])
  match lookupField errorData "error" with
  | some v => if truthy v then v else .str ("HTTP Error " ++ toString r.status)
  | none => .str ("HTTP Error " ++ toString r.status)

/-- Response handling of the remote path (lines 198–227 of `request.ts`):
non-2xx throws the extracted error; 204 or an empty body yields null;
a body that parses yields the parsed value; a body that does not parse
is returned as raw text. -/
def handleResponse (parse : String → Option Json) (r : FetchResponse) :
    Except Json RespValue :=
  if ¬(200 ≤ r.status ∧ r.status ≤ 299) then .error (extractError parse r)
  else if r.status = 204 then .ok .null
  else if r.body = "" then .ok .null
  else match parse r.body with
    | some j => .ok (.json j)
    | none => .ok (.text r.body)

/-- One step of the debounce gate for 401 responses: given the current
time and the stored last-firing time, decide whether the unauthorized
event fires and what the new stored time is
(`if (now - lastAuthError > 2000) { _lastAuthErrorTime = now; dispatch }`). -/
def authDebounceStep (now last : Int) : Int × Bool :=
  if now - last > 2000 then (now, true) else (last, false)

/-- The firing times produced by a sequence of 401 failures at the given
times, threading the debounce gate's stored timestamp. -/
def debounceTrace (last : Int) : List Int → List Int
  | [] => []
  | t :: ts =>
    match authDebounceStep t last with
    | (last', fired) =>
      if fired then t :: debounceTrace last' ts else debounceTrace last' ts

/-- Headers attached by the remote path: content type plus, when an API
key is stored, a bearer token and a secondary key header. -/
def mkHeaders (apiKey : Option String) : List (String × String) :=
  ("Content-Type", "application/json") ::
    (match apiKey with
     | some k => [("Authorization", "Bearer " ++ k), ("x-api-key", k)]
     | none => [])

def tauriDiag (cmd : String) : String :=
  "Tauri Invoke Error [" ++ cmd ++ "]:"

def webDiag (cmd : String) : String :=
  "Web Fetch Error [" ++ cmd ++ "]:"

def unmappedDiag (cmd : String) : String :=
  "Command [" ++ cmd ++ "] is not yet mapped for Web mode. Failing."

def parseWarnDiag (cmd : String) : String :=
  "Failed to parse JSON response for [" ++ cmd ++ "]:"

/-- The native (Tauri) branch of `request`: forward the command name and
args verbatim to `invoke`; return its value unchanged; on failure log a
diagnostic line and re-throw the failure, classified as a transport
error. -/
def nativeRequest (impl : String → Option (List (String × JSValue)) → Except Json RespValue)
    (cmd : String) (args : Option (List (String × JSValue))) :
    Except RequestError RespValue × List String :=
  match impl cmd args with
  | .ok v => (.ok v, [])
  | .error e => (.error (.transport e), [tauriDiag cmd])

/-- Outcome of one remote dispatch: the caller-visible result, the
debounce gate's stored timestamp afterwards, whether the unauthorized
event fired, and the diagnostic console lines emitted. -/
structure WebOutcome where
  result : Except RequestError RespValue
  lastAuth : Int
  fired : Bool
  diags : List String

/-- The remote (web) branch of `request`: assemble the request from the
registry, issue it, run the 401 debounce gate on failure statuses, and
normalize the response.  `fetchImpl` is the network capability; `parse`
is `JSON.parse` returning `none` on malformed input; `now` is
`Date.now()`; `lastAuth` is the stored `_lastAuthErrorTime`. -/
def webRequest (fetchImpl : HttpRequest → List (String × String) → FetchResponse)
    (parse : String → Option Json) (apiKey : Option String) (now lastAuth : Int)
    (cmd : String) (args : Option (List (String × JSValue))) : WebOutcome :=
  match buildRemoteRequest cmd args with
  | none => ⟨.error (.unmapped cmd), lastAuth, false, [unmappedDiag cmd]⟩
  | some req =>
    let resp := fetchImpl req (mkHeaders apiKey)
    let gate :=
      if ¬(200 ≤ resp.status ∧ resp.status ≤ 299) ∧ resp.status = 401 then
        authDebounceStep now lastAuth
      else (lastAuth, false)
    match handleResponse parse resp with
    | .ok v =>
      ⟨.ok v, gate.1, gate.2,
        match v with
        | .text _ => [parseWarnDiag cmd]
        | _ => []⟩
    | .error e => ⟨.error (.http e), gate.1, gate.2, [webDiag cmd]⟩

/-- The full dispatcher `request`: pick the transport from the
environment probe and run the corresponding branch. -/
def request (isTauri : Bool)
    (invokeImpl : String → Option (List (String × JSValue)) → Except Json RespValue)
    (fetchImpl : HttpRequest → List (String × String) → FetchResponse)
    (parse : String → Option Json) (apiKey : Option String) (now lastAuth : Int)
    (cmd : String) (args : Option (List (String × JSValue))) : WebOutcome :=
  if isTauri then
    match nativeRequest invokeImpl cmd args with
    | (res, ds) => ⟨res, lastAuth, false, ds⟩
  else webRequest fetchImpl parse apiKey now lastAuth cmd args

end AGM

namespace AGM

/-- Log severity levels. -/
inductive LogLevel where
  | ERROR | WARN | INFO | DEBUG | TRACE
deriving DecidableEq, Repr

/-- A log record as delivered by the backend. -/
structure LogEntry where
  id : Int
  timestamp : Int
  level : LogLevel
  target : String
  message : String
  fields : List (String × String)
deriving DecidableEq, Repr

/-- Buffer capacity (`MAX_LOGS`). -/
def MAX_LOGS : Nat := 5000

/-- The debug-console store state.  `unlisten` models
`unlistenFn !== null` (the held subscription handle); `liveSubs` is a
ghost counter of live push-channel registrations, incremented when
`listen` succeeds and decremented when the held `unlistenFn` is called. -/
structure ConsoleState where
  isOpen : Bool
  isEnabled : Bool
  logs : List LogEntry
  filter : List LogLevel
  searchTerm : String
  autoScroll : Bool
  unlisten : Bool
  liveSubs : Nat
deriving DecidableEq, Repr

/-- The store's initial state. -/
def initialConsole : ConsoleState :=
  ⟨false, false, [], [.ERROR, .WARN, .INFO], "", true, false, 0⟩

/-- The last `n` elements of a list (JS `slice(-n)` for `n > 0`). -/
def takeLast (n : Nat) (xs : List α) : List α :=
  xs.drop (xs.length - n)

/-- `addLog`: append one record; if the buffer would exceed `MAX_LOGS`,
keep only the last `MAX_LOGS` entries. -/
def addLog (s : ConsoleState) (log : LogEntry) : ConsoleState :=
  let newLogs := s.logs ++ [log]
  if MAX_LOGS < newLogs.length then { s with logs := takeLast MAX_LOGS newLogs }
  else { s with logs := newLogs }

/-- `loadLogs`: fetch the backend snapshot and install it as the whole
buffer; a failed fetch is absorbed and leaves the state unchanged. -/
def loadLogs (snap : Except Unit (List LogEntry)) (s : ConsoleState) : ConsoleState :=
  match snap with
  | .ok logs => { s with logs := logs }
  | .error _ => s

/-- `clearLogs`: issue the remote clear command; only when it succeeds,
empty the local buffer; a failure is absorbed. -/
def clearLogs (ok : Bool) (s : ConsoleState) : ConsoleState :=
  if ok then { s with logs := [] } else s

/-- `startListening`: if a handle is already held, return immediately;
otherwise subscribe (`listen`) and store the handle; a failed subscribe
is absorbed. -/
def startListening (listenOk : Bool) (s : ConsoleState) : ConsoleState :=
  if s.unlisten then s
  else if listenOk then { s with unlisten := true, liveSubs := s.liveSubs + 1 }
  else s

/-- `stopListening`: if a handle is held, call it (unregistering the
subscription) and clear it. -/
def stopListening (s : ConsoleState) : ConsoleState :=
  if s.unlisten then { s with unlisten := false, liveSubs := s.liveSubs - 1 }
  else s

/-- `enable`: issue the remote enable command; on success mark enabled,
reload the snapshot, and start listening; a failure of the remote
command is absorbed and leaves the state unchanged. -/
def enable (ok : Bool) (snap : Except Unit (List LogEntry)) (listenOk : Bool)
    (s : ConsoleState) : ConsoleState :=
  if ok then startListening listenOk (loadLogs snap { s with isEnabled := true })
  else s

/-- `disable`: issue the remote disable command; on success stop
listening and mark disabled; a failure is absorbed. -/
def disable (ok : Bool) (s : ConsoleState) : ConsoleState :=
  if ok then { stopListening s with isEnabled := false } else s

/-- `checkEnabled`: query the authoritative flag; on success install it
and, when enabled, reload the snapshot and start listening. -/
def checkEnabled (status : Except Unit Bool) (snap : Except Unit (List LogEntry))
    (listenOk : Bool) (s : ConsoleState) : ConsoleState :=
  match status with
  | .error _ => s
  | .ok b =>
    let s' := { s with isEnabled := b }
    if b then startListening listenOk (loadLogs snap s') else s'

/-- Delivery of one pushed record: each live channel registration runs
the `addLog` callback once. -/
def deliverPush (r : LogEntry) (s : ConsoleState) : ConsoleState :=
  (fun st => addLog st r)^[s.liveSubs] s

/-- One store operation together with the outcome of the external calls
it performs. -/
inductive ConsoleOp where
  | add (l : LogEntry)
  | load (snap : Except Unit (List LogEntry))
  | clear (ok : Bool)
  | enableOp (ok : Bool) (snap : Except Unit (List LogEntry)) (listenOk : Bool)
  | disableOp (ok : Bool)
  | checkOp (status : Except Unit Bool) (snap : Except Unit (List LogEntry)) (listenOk : Bool)
  | startOp (listenOk : Bool)
  | stopOp

def applyOp (s : ConsoleState) : ConsoleOp → ConsoleState
  | .add l => addLog s l
  | .load snap => loadLogs snap s
  | .clear ok => clearLogs ok s
  | .enableOp ok snap lOk => enable ok snap lOk s
  | .disableOp ok => disable ok s
  | .checkOp st snap lOk => checkEnabled st snap lOk s
  | .startOp lOk => startListening lOk s
  | .stopOp => stopListening s

def runOps (s : ConsoleState) (ops : List ConsoleOp) : ConsoleState :=
  ops.foldl applyOp s

/-- Backend snapshots installed by an operation respect the buffer
capacity (the backend owns the same bound; its code is outside this
front end). -/
def snapBounded : ConsoleOp → Bool
  | .load (.ok snap) => snap.length ≤ MAX_LOGS
  | .enableOp _ (.ok snap) _ => snap.length ≤ MAX_LOGS
  | .checkOp _ (.ok snap) _ => snap.length ≤ MAX_LOGS
  | _ => true

end AGM

namespace AGM

lemma takeLast_eq_of_le {xs : List α} {n : Nat} (h : xs.length ≤ n) :
    takeLast n xs = xs := by
  unfold takeLast
  rw [Nat.sub_eq_zero_of_le h, List.drop_zero]

lemma length_takeLast (n : Nat) (xs : List α) :
    (takeLast n xs).length = xs.length - (xs.length - n) := by
  simp [takeLast]

lemma length_takeLast_le (n : Nat) (xs : List α) :
    (takeLast n xs).length ≤ n := by
  rw [length_takeLast]; omega

lemma takeLast_drop {n k : Nat} {xs : List α} (h : k + n ≤ xs.length) :
    takeLast n (xs.drop k) = takeLast n xs := by
  unfold takeLast
  rw [List.drop_drop, List.length_drop]
  congr 1
  omega

lemma takeLast_append_left (n : Nat) (xs ys : List α) :
    takeLast n (takeLast n xs ++ ys) = takeLast n (xs ++ ys)  := by
  rcases Nat.le_total xs.length n with h | h
  · rw [takeLast_eq_of_le h]
  · have hcast : takeLast n xs ++ ys = (xs ++ ys).drop (xs.length - n) := by
      unfold takeLast
      rw [List.drop_append_eq_append_drop, Nat.sub_eq_zero_of_le (Nat.sub_le _ _),
        List.drop_zero]
    rw [hcast, takeLast_drop]
    rw [List.length_append]
    omega

lemma addLog_logs (s : ConsoleState) (l : LogEntry) :
    (addLog s l).logs = takeLast MAX_LOGS (s.logs ++ [l]) := by
  unfold addLog
  by_cases h : MAX_LOGS < s.logs.length + 1
  · simp [h]
  · have hle : (s.logs ++ [l]).length ≤ MAX_LOGS := by
      simp only [List.length_append, List.length_singleton]
      omega
    simp [h, takeLast_eq_of_le hle]

lemma addLog_logs_le (s : ConsoleState) (l : LogEntry) :
    (addLog s l).logs.length ≤ MAX_LOGS := by
  have h5 : 0 < MAX_LOGS := by decide
  rw [addLog_logs]
  rcases Nat.le_total (s.logs ++ [l]).length MAX_LOGS with h | h
  · rw [takeLast_eq_of_le h]; exact h
  · exact length_takeLast_le _ _

lemma startListening_logs (lOk : Bool) (s : ConsoleState) :
    (startListening lOk s).logs = s.logs := by
  unfold startListening
  split
  · rfl
  · split <;> rfl

lemma stopListening_logs (s : ConsoleState) :
    (stopListening s).logs = s.logs := by
  unfold stopListening
  split <;> rfl

lemma loadLogs_unlisten (snap : Except Unit (List LogEntry)) (s : ConsoleState) :
    (loadLogs snap s).unlisten = s.unlisten := by
  cases snap <;> rfl

lemma loadLogs_liveSubs (snap : Except Unit (List LogEntry)) (s : ConsoleState) :
    (loadLogs snap s).liveSubs = s.liveSubs := by
  cases snap <;> rfl

lemma applyOp_logs_le (s : ConsoleState) (op : ConsoleOp)
    (hs : s.logs.length ≤ MAX_LOGS) (hop : snapBounded op = true) :
    (applyOp s op).logs.length ≤ MAX_LOGS := by
  cases op with
  | add l => exact addLog_logs_le s l
  | load snap =>
    cases snap with
    | ok logs => simpa [applyOp, loadLogs, snapBounded] using hop
    | error e => simpa [applyOp, loadLogs] using hs
  | clear ok =>
    cases ok with
    | true => simp [applyOp, clearLogs]
    | false => simpa [applyOp, clearLogs] using hs
  | enableOp ok snap lOk =>
    cases ok with
    | true =>
      simp only [applyOp, enable, if_pos]
      rw [startListening_logs]
      cases snap with
      | ok logs => simpa [loadLogs, snapBounded] using hop
      | error e => simpa [loadLogs] using hs
    | false => simpa [applyOp, enable] using hs
  | disableOp ok =>
    cases ok with
    | true =>
      simp only [applyOp, disable, if_pos]
      simpa [stopListening_logs] using hs
    | false => simpa [applyOp, disable] using hs
  | checkOp status snap lOk =>
    cases status with
    | error e => simpa [applyOp, checkEnabled] using hs
    | ok b =>
      cases b with
      | true =>
        simp only [applyOp, checkEnabled, if_pos]
        rw [startListening_logs]
        cases snap with
        | ok logs => simpa [loadLogs, snapBounded] using hop
        | error e => simpa [loadLogs] using hs
      | false => simpa [applyOp, checkEnabled] using hs
  | startOp lOk => simpa [applyOp, startListening_logs] using hs
  | stopOp => simpa [applyOp, stopListening_logs] using hs

lemma runOps_logs_le (s : ConsoleState) (ops : List ConsoleOp)
    (hs : s.logs.length ≤ MAX_LOGS) (hops : ∀ op ∈ ops, snapBounded op = true) :
    (runOps s ops).logs.length ≤ MAX_LOGS := by
  induction ops generalizing s with
  | nil => exact hs
  | cons op rest ih =>
    have h1 : (applyOp s op).logs.length ≤ MAX_LOGS :=
      applyOp_logs_le s op hs (hops op (by simp))
    exact ih (applyOp s op) h1 (fun o ho => hops o (by simp [ho]))

lemma runOps_pushes (s : ConsoleState) (pushes : List LogEntry)
    (h : s.logs.length ≤ MAX_LOGS) :
    (runOps s (pushes.map ConsoleOp.add)).logs = takeLast MAX_LOGS (s.logs ++ pushes) := by
  induction pushes generalizing s with
  | nil => simp [runOps, takeLast_eq_of_le h]
  | cons p ps ih =>
    have hstep : runOps s ((p :: ps).map ConsoleOp.add) =
        runOps (addLog s p) (ps.map ConsoleOp.add) := rfl
    rw [hstep, ih (addLog s p) (addLog_logs_le s p), addLog_logs,
      takeLast_append_left]
    simp

end AGM

namespace AGM

/-- A concrete log record used to instantiate theorems. -/
def sampleEntry : LogEntry :=
  ⟨0, 0, .INFO, "app", "msg", []⟩

/-- A concrete console state holding exactly `n` copies of
`sampleEntry`. -/
def fullConsole (n : Nat) : ConsoleState :=
  ⟨false, true, List.replicate n sampleEntry, [.ERROR, .WARN, .INFO], "", true, true, 1⟩

lemma fullConsole_logs (n : Nat) : (fullConsole n).logs = List.replicate n sampleEntry :=
  rfl

end AGM

/-- C2: over every sequence of store operations (with backend snapshots
respecting the capacity), the buffer length stays at most `MAX_LOGS`
(5000); and an append that would exceed the capacity drops exactly the
oldest entries (a front segment), keeping the survivors in order. -/
theorem AGM.logBuffer_capacity_invariant :
    (∀ (s0 : AGM.ConsoleState) (ops : List AGM.ConsoleOp),
      s0.logs.length ≤ AGM.MAX_LOGS →
      (∀ op ∈ ops, AGM.snapBounded op = true) →
      (AGM.runOps s0 ops).logs.length ≤ AGM.MAX_LOGS) ∧
    (∀ (s : AGM.ConsoleState) (l : AGM.LogEntry),
      AGM.MAX_LOGS < s.logs.length + 1 →
      (AGM.addLog s l).logs = (s.logs ++ [l]).drop (s.logs.length + 1 - AGM.MAX_LOGS)) := by
  constructor
  · exact fun s0 ops h hops => AGM.runOps_logs_le s0 ops h hops
  · intro s l h
    rw [AGM.addLog_logs]
    unfold AGM.takeLast
    have hlen : (s.logs ++ [l]).length = s.logs.length + 1 := by
      rw [List.length_append, List.length_singleton]
    rw [hlen]

/-- Witness for C2 at concrete inputs: a three-operation run from the
empty store, and an overflowing append to a full buffer. -/
theorem AGM.logBuffer_capacity_invariant_witness :
    (AGM.runOps AGM.initialConsole
      [AGM.ConsoleOp.add AGM.sampleEntry, AGM.ConsoleOp.clear true,
       AGM.ConsoleOp.load (.ok [AGM.sampleEntry])]).logs.length ≤ AGM.MAX_LOGS ∧
    (AGM.addLog (AGM.fullConsole 5000) AGM.sampleEntry).logs =
      ((AGM.fullConsole 5000).logs ++ [AGM.sampleEntry]).drop
        ((AGM.fullConsole 5000).logs.length + 1 - AGM.MAX_LOGS) := by
  constructor
  · exact AGM.logBuffer_capacity_invariant.1 AGM.initialConsole _ (by decide)
      (by intro op hop; fin_cases hop <;> decide)
  · exact AGM.logBuffer_capacity_invariant.2 (AGM.fullConsole 5000) AGM.sampleEntry
      (by rw [AGM.fullConsole_logs, List.length_replicate]; decide)

/-- C3: appending one record to a buffer holding exactly `MAX_LOGS`
records evicts precisely the first record and appends the new one last;
and a sequence of pushed records is appended in delivery order with no
reordering or deduplication (the buffer is the last-5000 suffix of the
old contents followed by the pushes). -/
theorem AGM.addLog_full_evicts_oldest :
    (∀ (s : AGM.ConsoleState) (l : AGM.LogEntry),
      s.logs.length = AGM.MAX_LOGS →
      (AGM.addLog s l).logs = s.logs.drop 1 ++ [l]) ∧
    (∀ (s : AGM.ConsoleState) (pushes : List AGM.LogEntry),
      s.logs.length ≤ AGM.MAX_LOGS →
      (AGM.runOps s (pushes.map AGM.ConsoleOp.add)).logs =
        AGM.takeLast AGM.MAX_LOGS (s.logs ++ pushes)) := by
  constructor
  · intro s l h
    rw [AGM.addLog_logs]
    unfold AGM.takeLast
    have hidx : (s.logs ++ [l]).length - AGM.MAX_LOGS = 1 := by
      rw [List.length_append, List.length_singleton, h]
      omega
    rw [hidx, List.drop_append_eq_append_drop]
    have h1 : 1 - s.logs.length = 0 := by
      have h5 : 0 < AGM.MAX_LOGS := by decide
      omega
    rw [h1, List.drop_zero]
  · exact fun s pushes h => AGM.runOps_pushes s pushes h

/-- Witness for C3: one append to a buffer of exactly 5000 records, and
two records pushed in order onto the empty store. -/
theorem AGM.addLog_full_evicts_oldest_witness :
    ((AGM.addLog (AGM.fullConsole 5000) AGM.sampleEntry).logs =
      (AGM.fullConsole 5000).logs.drop 1 ++ [AGM.sampleEntry]) ∧
    ((AGM.runOps AGM.initialConsole
        ([AGM.sampleEntry, AGM.sampleEntry].map AGM.ConsoleOp.add)).logs =
      AGM.takeLast AGM.MAX_LOGS (AGM.initialConsole.logs ++ [AGM.sampleEntry, AGM.sampleEntry])) := by
  constructor
  · exact AGM.addLog_full_evicts_oldest.1 (AGM.fullConsole 5000) AGM.sampleEntry
      (by rw [AGM.fullConsole_logs, List.length_replicate]; rfl)
  · exact AGM.addLog_full_evicts_oldest.2 AGM.initialConsole _ (by decide)

/-- C9: after `disable()` followed by a successful `enable()`, the
buffer equals exactly the snapshot fetched by `loadLogs` — installation
replaces the contents, regardless of what was held before. -/
theorem AGM.disable_enable_installs_snapshot :
    ∀ (s : AGM.ConsoleState) (snap : List AGM.LogEntry) (listenOk : Bool),
      (AGM.enable true (.ok snap) listenOk (AGM.disable true s)).logs = snap := by
  intro s snap listenOk
  unfold AGM.enable
  rw [if_pos rfl, AGM.startListening_logs]
  rfl

/-- C10: `clearLogs` empties the local buffer exactly when the remote
clear command succeeds; on failure the state is left completely
unchanged (the failure is absorbed, `clearLogs` being a total function
into states). -/
theorem AGM.clearLogs_atomic :
    ∀ s : AGM.ConsoleState,
      AGM.clearLogs true s = { s with logs := [] } ∧ AGM.clearLogs false s = s := by
  intro s
  constructor <;> rfl

/-- C5 counterexample: calling `enable()` while already Listening is not
a no-op on the state — the second call re-fetches the snapshot and
installs it, here replacing a one-record buffer by the empty one. -/
theorem AGM.enable_again_changes_state :
    AGM.enable true (.ok []) true (AGM.fullConsole 1) ≠ AGM.fullConsole 1 := by
  decide

/-- C5 amended: `startListening` is a no-op whenever a handle is held,
so a second `enable()` (which does re-issue the remote command and
re-install the snapshot) opens no additional subscription: after two
successful enables with no intervening disable exactly one live
subscription exists, and a pushed record is delivered (appended) exactly
once. -/
theorem AGM.enable_single_subscription :
    (∀ (listenOk : Bool) (s : AGM.ConsoleState),
      s.unlisten = true → AGM.startListening listenOk s = s) ∧
    (∀ (s : AGM.ConsoleState) (snap1 snap2 : Except Unit (List AGM.LogEntry))
       (lOk2 : Bool) (r : AGM.LogEntry),
      s.unlisten = false → s.liveSubs = 0 →
      ((AGM.enable true snap2 lOk2 (AGM.enable true snap1 true s)).liveSubs = 1 ∧
       (AGM.enable true snap2 lOk2 (AGM.enable true snap1 true s)).unlisten = true ∧
       AGM.deliverPush r (AGM.enable true snap2 lOk2 (AGM.enable true snap1 true s)) =
         AGM.addLog (AGM.enable true snap2 lOk2 (AGM.enable true snap1 true s)) r)) := by
  constructor
  · intro listenOk s h
    unfold AGM.startListening
    rw [if_pos h]
  · intro s snap1 snap2 lOk2 r hu hn
    have h1 : AGM.enable true snap1 true s =
        { AGM.loadLogs snap1 { s with isEnabled := true } with
          unlisten := true, liveSubs := (AGM.loadLogs snap1 { s with isEnabled := true }).liveSubs + 1 } := by
      unfold AGM.enable AGM.startListening
      rw [if_pos rfl, if_neg, if_pos rfl]
      rw [AGM.loadLogs_unlisten]
      simp [hu]
    have h1u : (AGM.enable true snap1 true s).unlisten = true := by rw [h1]
    have h1n : (AGM.enable true snap1 true s).liveSubs = 1 := by
      rw [h1]
      show (AGM.loadLogs snap1 { s with isEnabled := true }).liveSubs + 1 = 1
      rw [AGM.loadLogs_liveSubs]
      simp [hn]
    have h2 : AGM.enable true snap2 lOk2 (AGM.enable true snap1 true s) =
        AGM.loadLogs snap2 { AGM.enable true snap1 true s with isEnabled := true } := by
      unfold AGM.enable AGM.startListening
      rw [if_pos rfl, if_pos]
      rw [AGM.loadLogs_unlisten]
      exact h1u
    have h2n : (AGM.enable true snap2 lOk2 (AGM.enable true snap1 true s)).liveSubs = 1 := by
      rw [h2, AGM.loadLogs_liveSubs]
      exact h1n
    have h2u : (AGM.enable true snap2 lOk2 (AGM.enable true snap1 true s)).unlisten = true := by
      rw [h2, AGM.loadLogs_unlisten]
      exact h1u
    refine ⟨h2n, h2u, ?_⟩
    unfold AGM.deliverPush
    rw [h2n, Function.iterate_one]

/-- Witness for the amended C5 at concrete inputs: two successful
enables from the initial state. -/
theorem AGM.enable_single_subscription_witness :
    (AGM.startListening true (AGM.fullConsole 0) = AGM.fullConsole 0) ∧
    ((AGM.enable true (.ok []) false (AGM.enable true (.ok []) true AGM.initialConsole)).liveSubs = 1 ∧
     (AGM.enable true (.ok []) false (AGM.enable true (.ok []) true AGM.initialConsole)).unlisten = true ∧
     AGM.deliverPush AGM.sampleEntry
         (AGM.enable true (.ok []) false (AGM.enable true (.ok []) true AGM.initialConsole)) =
       AGM.addLog (AGM.enable true (.ok []) false (AGM.enable true (.ok []) true AGM.initialConsole))
         AGM.sampleEntry) := by
  constructor
  · exact AGM.enable_single_subscription.1 true (AGM.fullConsole 0) rfl
  · exact AGM.enable_single_subscription.2 AGM.initialConsole (.ok []) (.ok []) false
      AGM.sampleEntry rfl rfl

namespace AGM

lemma debounceTrace_fires {last t : Int} (ts : List Int) (h : t - last > 2000) :
    debounceTrace last (t :: ts) = t :: debounceTrace t ts := by
  simp only [debounceTrace, authDebounceStep]
  rw [if_pos h]
  rfl

lemma debounceTrace_skips {last t : Int} (ts : List Int) (h : ¬(t - last > 2000)) :
    debounceTrace last (t :: ts) = debounceTrace last ts := by
  simp only [debounceTrace, authDebounceStep]
  rw [if_neg h]
  rfl

lemma debounceTrace_chain (ts : List Int) (last : Int) :
    List.Chain (fun a b => b - a > 2000) last (debounceTrace last ts) := by
  induction ts generalizing last with
  | nil => exact List.Chain.nil
  | cons t ts ih =>
    by_cases h : t - last > 2000
    · rw [debounceTrace_fires ts h]
      exact List.Chain.cons h (ih t)
    · rw [debounceTrace_skips ts h]
      exact ih last

lemma debounceTrace_of_all_inside (ts : List Int) (last : Int)
    (h : ∀ t ∈ ts, ¬(t - last > 2000)) : debounceTrace last ts = [] := by
  induction ts with
  | nil => rfl
  | cons t ts ih =>
    rw [debounceTrace_skips ts (h t (by simp))]
    exact ih (fun u hu => h u (by simp [hu]))

end AGM

/-- C4: the 401 debounce gate fires at most once per rolling 2000 ms
window: consecutive firing times always differ by more than 2000 ms;
two failing calls 500 ms apart produce exactly one notification, two
calls 2500 ms apart produce two, and any number of further failing
calls within 2000 ms of a firing produce no further notification. -/
theorem AGM.unauthorized_debounce :
    (∀ (last : Int) (ts : List Int),
      List.Chain (fun a b => b - a > 2000) last (AGM.debounceTrace last ts)) ∧
    (∀ (last t0 : Int), t0 - last > 2000 →
      AGM.debounceTrace last [t0, t0 + 500] = [t0]) ∧
    (∀ (last t0 : Int), t0 - last > 2000 →
      AGM.debounceTrace last [t0, t0 + 2500] = [t0, t0 + 2500]) ∧
    (∀ (last t0 : Int) (ts : List Int), t0 - last > 2000 →
      (∀ t ∈ ts, t ≤ t0 + 2000) →
      AGM.debounceTrace last (t0 :: ts) = [t0]) := by
  refine ⟨fun last ts => AGM.debounceTrace_chain ts last, ?_, ?_, ?_⟩
  · intro last t0 h
    rw [AGM.debounceTrace_fires _ h,
      AGM.debounceTrace_skips _ (by omega)]
    rfl
  · intro last t0 h
    rw [AGM.debounceTrace_fires _ h,
      AGM.debounceTrace_fires _ (by omega)]
    rfl
  · intro last t0 ts h hin
    rw [AGM.debounceTrace_fires _ h,
      AGM.debounceTrace_of_all_inside ts t0 (fun t ht => by have := hin t ht; omega)]

/-- Witness for C4 at concrete times: previous firing at 0, calls at
10000/10500 (one firing), 10000/12500 (two firings), and a burst inside
the window (one firing). -/
theorem AGM.unauthorized_debounce_witness :
    AGM.debounceTrace 0 [10000, 10500] = [10000] ∧
    AGM.debounceTrace 0 [10000, 12500] = [10000, 12500] ∧
    AGM.debounceTrace 0 [10000, 10001, 10800, 12000] = [10000] := by
  refine ⟨?_, ?_, ?_⟩
  · exact AGM.unauthorized_debounce.2.1 0 10000 (by omega)
  · have h := AGM.unauthorized_debounce.2.2.1 0 10000 (by omega)
    norm_num at h
    exact h
  · exact AGM.unauthorized_debounce.2.2.2 0 10000 [10001, 10800, 12000] (by omega)
      (by intro t ht; fin_cases ht <;> omega)

/-- C6: the native branch forwards the command and args verbatim to the
embedding's invoke capability, returns a success value unchanged with no
diagnostics, and turns a thrown failure into a `transport` error
(re-thrown to the caller) after emitting the local diagnostic line; the
full dispatcher in native mode returns exactly the native branch's
result. -/
theorem AGM.native_path_transport :
    ∀ (impl : String → Option (List (String × AGM.JSValue)) → Except AGM.Json AGM.RespValue)
      (fetchImpl : AGM.HttpRequest → List (String × String) → AGM.FetchResponse)
      (parse : String → Option AGM.Json) (apiKey : Option String) (now lastAuth : Int)
      (cmd : String) (args : Option (List (String × AGM.JSValue))),
      (∀ v, impl cmd args = .ok v → AGM.nativeRequest impl cmd args = (.ok v, [])) ∧
      (∀ e, impl cmd args = .error e →
        AGM.nativeRequest impl cmd args =
          (.error (.transport e), [AGM.tauriDiag cmd])) ∧
      (AGM.request true impl fetchImpl parse apiKey now lastAuth cmd args).result =
        (AGM.nativeRequest impl cmd args).1 := by
  intro impl fetchImpl parse apiKey now lastAuth cmd args
  refine ⟨?_, ?_, ?_⟩
  · intro v h
    unfold AGM.nativeRequest
    rw [h]
  · intro e h
    unfold AGM.nativeRequest
    rw [h]
  · unfold AGM.request
    rw [if_pos rfl]

/-- Witness for C6: a concrete invoke capability that fails with a
string error, and one that succeeds. -/
theorem AGM.native_path_transport_witness :
    AGM.nativeRequest (fun _ _ => .error (.str "boom")) "list_accounts" none =
      (.error (.transport (.str "boom")), [AGM.tauriDiag "list_accounts"]) ∧
    AGM.nativeRequest (fun _ _ => .ok .null) "list_accounts" none = (.ok .null, []) := by
  constructor
  · exact (AGM.native_path_transport (fun _ _ => .error (.str "boom"))
      (fun _ _ => ⟨200, ""⟩) (fun _ => none) none 0 0 "list_accounts" none).2.1
      (.str "boom") rfl
  · exact (AGM.native_path_transport (fun _ _ => .ok .null)
      (fun _ _ => ⟨200, ""⟩) (fun _ => none) none 0 0 "list_accounts" none).1 .null rfl

/-- C8: normalization of a successful (2xx) remote response yields null
for a 204 status or an empty body, and degrades a non-empty body that
fails JSON parsing to the raw text, as a success — never as an error. -/
theorem AGM.response_normalization :
    ∀ (parse : String → Option AGM.Json) (r : AGM.FetchResponse),
      (r.status = 204 → AGM.handleResponse parse r = .ok .null) ∧
      (200 ≤ r.status → r.status ≤ 299 → r.body = "" →
        AGM.handleResponse parse r = .ok .null) ∧
      (200 ≤ r.status → r.status ≤ 299 → r.status ≠ 204 → r.body ≠ "" →
        parse r.body = none → AGM.handleResponse parse r = .ok (.text r.body)) := by
  intro parse r
  refine ⟨?_, ?_, ?_⟩
  · intro h204
    unfold AGM.handleResponse
    rw [if_neg (by omega), if_pos h204]
  · intro h200 h299 hbody
    unfold AGM.handleResponse
    rw [if_neg (by omega)]
    by_cases h204 : r.status = 204
    · rw [if_pos h204]
    · rw [if_neg h204, if_pos hbody]
  · intro h200 h299 h204 hbody hparse
    unfold AGM.handleResponse
    rw [if_neg (by omega), if_neg h204, if_neg hbody, hparse]

/-- Witness for C8: a 204 response, a 200 response with an empty body,
and a 200 response with a body the parser rejects. -/
theorem AGM.response_normalization_witness :
    AGM.handleResponse (fun _ => none) ⟨204, ""⟩ = .ok .null ∧
    AGM.handleResponse (fun _ => none) ⟨200, ""⟩ = .ok .null ∧
    AGM.handleResponse (fun _ => none) ⟨200, "plain"⟩ = .ok (.text "plain") := by
  refine ⟨?_, ?_, ?_⟩
  · exact (AGM.response_normalization (fun _ => none) ⟨204, ""⟩).1 rfl
  · exact (AGM.response_normalization (fun _ => none) ⟨200, ""⟩).2.1 (by decide) (by decide) rfl
  · exact (AGM.response_normalization (fun _ => none) ⟨200, "plain"⟩).2.2 (by decide) (by decide)
      (by decide) (by decide) rfl

namespace AGM

/-- Characters that may appear in a form-encoded value: the serializer's
pass-through set plus `+` (encoded space) and `%` (escape lead-in). -/
def formSafe (c : Char) : Bool :=
  formUnreserved c || c = '+' || c = '%'

lemma hexDigit_formSafe (n : Nat) : formSafe (hexDigit n) = true := by
  unfold hexDigit
  rcases Nat.lt_or_ge n 16 with h | h
  · interval_cases n <;> decide
  · rw [List.getD_eq_default]
    · decide
    · simpa using h

lemma percentByte_formSafe (b : Nat) : ∀ c ∈ percentByte b, formSafe c = true := by
  intro c hc
  unfold percentByte at hc
  simp only [List.mem_cons, List.not_mem_nil, or_false] at hc
  rcases hc with rfl | rfl | rfl
  · decide
  · exact hexDigit_formSafe _
  · exact hexDigit_formSafe _

lemma formEncodeChar_safe (d : Char) : ∀ c ∈ formEncodeChar d, formSafe c = true := by
  intro c hc
  unfold formEncodeChar at hc
  by_cases h1 : d = ' '
  · rw [if_pos h1] at hc
    simp only [List.mem_singleton] at hc
    subst hc
    decide
  · rw [if_neg h1] at hc
    by_cases h2 : formUnreserved d = true
    · rw [if_pos h2] at hc
      simp only [List.mem_singleton] at hc
      subst hc
      simp [formSafe, h2]
    · rw [if_neg h2] at hc
      simp only [List.mem_flatMap] at hc
      obtain ⟨b, _, hcb⟩ := hc
      exact percentByte_formSafe b c hcb

lemma formEncode_safe (s : String) : ∀ c ∈ (formEncode s).data, formSafe c = true := by
  intro c hc
  have hdata : (formEncode s).data = s.data.flatMap formEncodeChar := rfl
  rw [hdata, List.mem_flatMap] at hc
  obtain ⟨d, _, hcd⟩ := hc
  exact formEncodeChar_safe d c hcd

lemma formSafe_not_reserved (c : Char) (h : formSafe c = true) :
    c ∉ ['&', '=', '?', '#', '/', ' ', ':'] := by
  intro hc
  fin_cases hc <;> exact absurd h (by decide)

lemma collectParams_app (args : List (String × JSValue)) (acc : List (String × String)) :
    args.foldl
        (fun ps kv =>
          if kv.2 ≠ JSValue.undef ∧ kv.2 ≠ JSValue.null then ps ++ [(kv.1, jsString kv.2)]
          else ps)
        acc =
      acc ++ (args.filter (fun kv => kv.2 ≠ JSValue.undef ∧ kv.2 ≠ JSValue.null)).map
        (fun kv => (kv.1, jsString kv.2)) := by
  induction args generalizing acc with
  | nil => simp
  | cons kv rest ih =>
    rw [List.foldl_cons, List.filter_cons]
    by_cases h : kv.2 ≠ JSValue.undef ∧ kv.2 ≠ JSValue.null
    · rw [if_pos h, ih]
      simp [h]
    · rw [if_neg h, ih]
      simp [h]

end AGM

/-- C1: for every command in the registry, substituting an argument
value for every `:key` placeholder leaves no placeholder (no `:` at all)
in the path handed to the transport; in the `delete_account` scenario
the args `{accountId: "42"}` produce `DELETE /api/accounts/42?accountId=42`
— the substituted key is not removed from the argument set and reappears
in the query string — and values are URL-encoded during substitution. -/
theorem AGM.placeholder_substitution_resolves :
    (∀ p ∈ AGM.COMMAND_MAPPING,
      (AGM.substPath p.2.url (AGM.canonicalArgs p.2.url)).data.contains ':' = false) ∧
    AGM.buildRemoteRequest "delete_account" (some [("accountId", AGM.JSValue.str "42")]) =
      some ⟨.DELETE, "/api/accounts/42?accountId=42", none⟩ ∧
    AGM.buildRemoteRequest "delete_account" (some [("accountId", AGM.JSValue.str "a b")]) =
      some ⟨.DELETE, "/api/accounts/a%20b?accountId=a+b", none⟩ := by
  refine ⟨by decide, by decide, by decide⟩

/-- Witness for C1 at one registry entry: the `delete_account` template
with its placeholder bound. -/
theorem AGM.placeholder_substitution_resolves_witness :
    (AGM.substPath "/api/accounts/:accountId"
      (AGM.canonicalArgs "/api/accounts/:accountId")).data.contains ':' = false :=
  AGM.placeholder_substitution_resolves.1
    ("delete_account", (⟨"/api/accounts/:accountId", .DELETE⟩ : AGM.CmdMapping))
    (by decide)

/-- C7: the query string built for GET/DELETE dispatch contains exactly
the argument entries whose value is neither null nor undefined, in
order, with the JS string form of each value; encoded values consist
only of form-safe characters, so reserved URL delimiters never appear
raw; and a dispatch without arguments appends no query string
(`get_proxy_status` yields `GET /api/proxy/status`). -/
theorem AGM.query_string_construction :
    (∀ args : List (String × AGM.JSValue),
      AGM.collectParams args =
        (args.filter (fun kv => kv.2 ≠ AGM.JSValue.undef ∧ kv.2 ≠ AGM.JSValue.null)).map
          (fun kv => (kv.1, AGM.jsString kv.2))) ∧
    (∀ s : String, ∀ c ∈ (AGM.formEncode s).data,
      AGM.formSafe c = true ∧ c ∉ ['&', '=', '?', '#', '/', ' ', ':']) ∧
    AGM.buildRemoteRequest "get_proxy_status" none =
      some ⟨.GET, "/api/proxy/status", none⟩ := by
  refine ⟨?_, ?_, by decide⟩
  · intro args
    exact AGM.collectParams_app args []
  · intro s c hc
    have h := AGM.formEncode_safe s c hc
    exact ⟨h, AGM.formSafe_not_reserved c h⟩

/-- Witness for C7: omission of null/undefined entries on a concrete
argument list, and safety of a character of a concrete encoded value. -/
theorem AGM.query_string_construction_witness :
    (AGM.collectParams [("a", AGM.JSValue.null), ("b", AGM.JSValue.num 3), ("c", AGM.JSValue.undef)] =
      ([("a", AGM.JSValue.null), ("b", AGM.JSValue.num 3), ("c", AGM.JSValue.undef)].filter
          (fun kv => kv.2 ≠ AGM.JSValue.undef ∧ kv.2 ≠ AGM.JSValue.null)).map
        (fun kv => (kv.1, AGM.jsString kv.2))) ∧
    (AGM.formSafe 'a' = true ∧ 'a' ∉ ['&', '=', '?', '#', '/', ' ', ':']) := by
  constructor
  · exact AGM.query_string_construction.1 [("a", AGM.JSValue.null), ("b", AGM.JSValue.num 3),
      ("c", AGM.JSValue.undef)]
  · exact AGM.query_string_construction.2.1 "a&b" 'a' (by decide)
